import Mathlib

/-!
Verification development for the mailos LLM vendor abstraction and
tool-execution engine (`src/mailos/vendors/`): a shallow embedding of
`models.py`, `base.py`, `anthropic_llm.py`, `openai_llm.py` and
`bedrock_anthropic_llm.py`, followed by theorems (C1-C10) settling the
stated properties of that code.

Modelling conventions:
* Python dynamic values returned by tool callables are modelled by the
  flat `PyVal` type (None / bool / int / str); `pyStr` is Python `str()`
  on these scalars.
* Python exceptions are modelled with `Except`: a function that can
  raise returns `Except String α` (the string is the exception message);
  a total Lean function models a Python function that cannot raise.
* Image byte strings are abstracted to an `ImageBlob` recording the
  observable attributes the code reads (byte length, pixel dimensions,
  PIL format name); base64 payloads are represented by carrying the blob
  (its dimensions and format) rather than literal base64 text.
* `float` configuration values (temperature, top_p, ...) are modelled as
  `Rat`; they are only passed through, never computed with.
* The network is an oracle the adapter queries: a function from the
  request (and, where retries matter, an attempt index) to the vendor's
  raw response or an `ApiError`.
-/

/-- Python scalar values, as returned by tool callables. -/
inductive PyVal where
  | none
  | bool (b : Bool)
  | int (n : Int)
  | str (s : String)
  deriving Repr, DecidableEq

/-- Python `str()` on a `PyVal` (used by `_execute_tool`'s `str(result)`). -/
def pyStr : PyVal → String
  | .none => "None"
  | .bool true => "True"
  | .bool false => "False"
  | .int n => toString n
  | .str s => s

/-- A Python dict with string keys and scalar values (kwargs, schemas, usage). -/
abbrev PyDict := List (String × PyVal)

/-- Python `x or default` on an optional string (`None` and `""` are falsy). -/
def pyOr (o : Option String) (d : String) : String :=
  match o with
  | some s => if s = "" then d else s
  | none => d

/-- The observable attributes of a decoded image byte string: what
`len(image_data)`, `Image.open(...).size` and `.format` yield on it. -/
structure ImageBlob where
  size : Nat
  width : Nat
  height : Nat
  format : String
  deriving Repr, DecidableEq

/-- The payload of a `Content` item: a text string or raw image bytes. -/
inductive PyData where
  | str (s : String)
  | bytes (img : ImageBlob)
  deriving Repr, DecidableEq

/-- Python `len` on a content payload. -/
def pyLen : PyData → Nat
  | .str s => s.length
  | .bytes img => img.size

/-- Python `str.lower()` of a PIL format tag (`String.toLower`, written
over the character list so that concrete instances evaluate). -/
def strLower (s : String) : String := String.mk (s.data.map Char.toLower)

/-! ## The data model (`models.py`) -/

/-- `RoleType` from `models.py`. -/
inductive RoleType where
  | system
  | user
  | assistant
  | function
  deriving Repr, DecidableEq

/-- The `.value` of a `RoleType` (it is a `str` enum). -/
def RoleType.value : RoleType → String
  | .system => "system"
  | .user => "user"
  | .assistant => "assistant"
  | .function => "function"

/-- `ContentType` from `models.py`. -/
inductive ContentType where
  | text
  | image
  | audio
  | file
  | embedding
  deriving Repr, DecidableEq

/-- `Content` from `models.py` (the unused `to_dict` helper is omitted). -/
structure Content where
  type : ContentType
  data : PyData
  mime_type : Option String := none
  deriving Repr, DecidableEq

/-- `Message` from `models.py`; the `timestamp` field (a wall-clock
default never read by the engine or the adapters) is omitted. -/
structure Message where
  role : RoleType
  content : List Content
  name : Option String := none
  function_call : Option PyDict := none
  deriving Repr, DecidableEq

/-- `Tool` from `models.py`.  The callable is modelled as a function from
its kwargs dict to `Except String PyVal`: `.error msg` models the callable
raising an exception whose `str()` is `msg`. -/
structure Tool where
  name : String
  description : String
  «parameters» : PyDict
  function : PyDict → Except String PyVal
  required_params : Option (List String) := none

/-- `ModelConfig` from `models.py`, floats modelled as `Rat`. -/
structure ModelConfig where
  temperature : Rat := 7/10
  max_tokens : Option Nat := none
  top_p : Rat := 1
  frequency_penalty : Rat := 0
  presence_penalty : Rat := 0
  stop_sequences : Option (List String) := none
  deriving Repr, DecidableEq

/-- A tool-call dict as produced by the adapters' `_extract_tool_calls`
and consumed by `BaseLLM._execute_tool`: `"id"` and `"name"` are always
present, `"input"` / `"arguments"` may each be absent. -/
structure ToolCall where
  id : String
  name : String
  input : Option PyDict := none
  arguments : Option PyDict := none
  deriving Repr, DecidableEq

/-- `LLMResponse` from `models.py`; `created_at` (wall clock) omitted. -/
structure LLMResponse where
  content : List Content
  role : RoleType := .assistant
  finish_reason : Option String := none
  tool_calls : Option (List ToolCall) := none
  usage : Option PyDict := none
  model : Option String := none
  system_fingerprint : Option String := none
  deriving Repr, DecidableEq

/-- The tool-result dict built by `BaseLLM._execute_tool`:
`{"type": "tool_result", "tool_use_id", "content"}` with `"is_error": True`
present exactly in the error cases (`isError = false` models the key
being absent). -/
structure ToolResult where
  tool_use_id : String
  content : String
  isError : Bool
  deriving Repr, DecidableEq

/-! ## The tool executor (`BaseLLM._execute_tool`, base.py lines 84-128) -/

/-- `tool_input = tool_call.get("input") or tool_call.get("arguments", {})`:
a missing or empty (falsy) `"input"` falls back to `"arguments"`, which
defaults to the empty dict. -/
def effectiveToolInput (tc : ToolCall) : PyDict :=
  match tc.input with
  | some d => if d.isEmpty then tc.arguments.getD [] else d
  | none => tc.arguments.getD []

/-- `BaseLLM._execute_tool`.  The Lean function is total: every Python
code path of the method returns a tool-result dict (unknown tool, callable
raised, success), so no `Except` wrapper is needed. -/
def executeTool (tc : ToolCall) (available_tools : List Tool) : ToolResult :=
  let tool_input := effectiveToolInput tc
  match available_tools.find? (fun t => t.name == tc.name) with
  | Option.none =>
      { tool_use_id := tc.id
        content := "Error: Tool " ++ tc.name ++ " not found"
        isError := true }
  | some tool =>
      match tool.function tool_input with
      | .ok result =>
          { tool_use_id := tc.id, content := pyStr result, isError := false }
      | .error e =>
          { tool_use_id := tc.id
            content := "Error executing " ++ tc.name ++ ": " ++ e
            isError := true }

/-! ## The generation engine (`BaseLLM`, base.py) -/

/-- The immutable per-instance construction state an adapter's methods
read: api key, model id, `ModelConfig`, and (OpenAI only) `tool_choice`. -/
structure VendorCtx where
  api_key : Option String
  model : String
  config : ModelConfig
  tool_choice : Option String := none
  deriving Repr, DecidableEq

/-- The mutable instance fields of a `BaseLLM` (`__init__`, base.py
lines 17-24): the construction context plus the registered-tools dict,
the conversation history and the tool-call ceiling. -/
structure LLMState where
  ctx : VendorCtx
  tools : List (String × Tool)
  history : List Message
  max_tool_calls : Nat

/-- The abstract-method surface of one vendor adapter, as called by the
engine (`BaseLLM`), with the network call itself (`_make_request`'s
client invocation) supplied as a pure mock oracle in `makeRequest`.
`Raw` is the vendor's raw-response type, `Req` its formatted-messages
type and `TF` its formatted-tools type. -/
structure VendorOps (Raw Req TF : Type) where
  formatMessages : VendorCtx → List Message → Option (List Tool) → Req
  formatTools : Option (List Tool) → TF
  makeRequest : VendorCtx → Req → TF → Bool → Raw
  createResponse : VendorCtx → Raw → Option (List ToolCall) → Except String LLMResponse
  extractToolCalls : Raw → List ToolCall
  hasToolCalls : Raw → Bool
  formatToolResults : Raw → List ToolResult → Req

/-- The synthetic bound-hit response built by `BaseLLM._process_response`
(base.py lines 146-158) when `tool_call_count >= self.max_tool_calls`. -/
def maxToolsExceededResponse (ctx : VendorCtx) (maxToolCalls : Nat) : LLMResponse :=
  { content := [{ type := .text
                  data := .str ("Error: Exceeded maximum number of tool calls ("
                    ++ toString maxToolCalls ++ ")") }]
    model := some ctx.model
    finish_reason := some "max_tools_exceeded" }

/-- The body of `BaseLLM._process_response` (base.py lines 130-187),
instrumented with the number of `_make_request` invocations it performs
(the second component).  The recursion in the source is bounded by
`max_tool_calls - tool_call_count` (the guard at line 144 fires once the
counter reaches the ceiling and the recursive call at line 182 increments
the counter); `fuel` is exactly that quantity, so the structural
recursion below and the source recursion unfold identically. -/
def processResponseGo {Raw Req TF : Type} (V : VendorOps Raw Req TF) (ctx : VendorCtx)
    (maxToolCalls : Nat) (tools : List Tool) :
    Nat → Raw → Nat → Except String LLMResponse × Nat
  | 0, _, _ => (.ok (maxToolsExceededResponse ctx maxToolCalls), 0)
  | fuel + 1, raw, count =>
    if maxToolCalls ≤ count then
      (.ok (maxToolsExceededResponse ctx maxToolCalls), 0)
    else
      let tool_calls := V.extractToolCalls raw
      if tool_calls.isEmpty then (V.createResponse ctx raw none, 0)
      else
        let tool_results := tool_calls.map (fun tc => executeTool tc tools)
        let messages := V.formatToolResults raw tool_results
        let tools_format := V.formatTools (some tools)
        let new_response := V.makeRequest ctx messages tools_format false
        if V.hasToolCalls new_response then
          let (r, n) := processResponseGo V ctx maxToolCalls tools fuel new_response (count + 1)
          (r, n + 1)
        else (V.createResponse ctx new_response (some tool_calls), 1)

/-- `BaseLLM._process_response(raw_response, tools, tool_call_count)`. -/
def processResponse {Raw Req TF : Type} (V : VendorOps Raw Req TF) (ctx : VendorCtx)
    (maxToolCalls : Nat) (raw : Raw) (tools : List Tool) (count : Nat) :
    Except String LLMResponse × Nat :=
  processResponseGo V ctx maxToolCalls tools (maxToolCalls - count) raw count

/-- The outcome of `generate`: a raw streaming handle (the async iterator
`_stream_response(raw_response)`) or a processed `LLMResponse`. -/
inductive GenOut (Raw : Type) where
  | stream (raw : Raw)
  | response (resp : LLMResponse)

/-- `BaseLLM.generate` (base.py lines 226-257), instrumented with the
number of network requests issued.  The `try/except` wrapper in the
source logs and re-raises, leaving the result unchanged. -/
def generate {Raw Req TF : Type} (V : VendorOps Raw Req TF) (s : LLMState)
    (messages : List Message) (stream : Bool) (tools : Option (List Tool)) :
    Except String (GenOut Raw) × Nat :=
  let formatted_messages := V.formatMessages s.ctx messages tools
  let formatted_tools := V.formatTools tools
  let raw_response := V.makeRequest s.ctx formatted_messages formatted_tools stream
  if stream then (.ok (.stream raw_response), 1)
  else
    let (r, n) := processResponse V s.ctx s.max_tool_calls raw_response (tools.getD []) 0
    (r.map GenOut.response, 1 + n)

/-- `BaseLLM.generate` viewed as a state transformer on the instance
fields.  The method body (base.py lines 226-257, together with the
`_process_response` / `_execute_tool` helpers it calls) contains no
assignment to any `self` attribute, so the faithful translation returns
the instance state unchanged. -/
def statefulGenerate {Raw Req TF : Type} (V : VendorOps Raw Req TF) (s : LLMState)
    (messages : List Message) (stream : Bool) (tools : Option (List Tool)) :
    (Except String (GenOut Raw) × Nat) × LLMState :=
  (generate V s messages stream tools, s)

/-- `BaseLLM.generate_sync` (base.py lines 301-315): runs `generate` on a
fresh event loop with the given `stream` flag, raising nothing itself.
This is the version the Bedrock adapter inherits. -/
def baseGenerateSync {Raw Req TF : Type} (V : VendorOps Raw Req TF) (s : LLMState)
    (messages : List Message) (stream : Bool) (tools : Option (List Tool)) :
    Except String (GenOut Raw) × Nat :=
  generate V s messages stream tools

/-- A provider error surfaced by an SDK client call: the provider's
rate-limit signal (`openai.RateLimitError`, `anthropic.RateLimitError`,
Bedrock throttling) or any other exception. -/
inductive ApiError where
  | rateLimit
  | other (msg : String)
  deriving Repr, DecidableEq

/-! ## The Anthropic-direct adapter (`anthropic_llm.py`) -/

/-- A content block in an Anthropic-format request message. -/
inductive ABlock where
  | text (text : PyData)
  | image (media_type : String) (data : PyData)
  | toolResult (tool_use_id : String) (content : String)
  deriving Repr, DecidableEq

/-- A tool-use entry inside a `tool_calls`-typed response block of the
direct adapter (`tool_call.id / .name / .parameters`). -/
structure AToolUse where
  id : String
  name : String
  «parameters» : PyDict
  deriving Repr, DecidableEq

/-- A content block of a raw Anthropic response as the direct adapter
reads it: blocks with `.type == "text"` carrying `.text`, and blocks
with `.type == "tool_calls"` carrying `.tool_calls`. -/
inductive ARespBlock where
  | text (text : String)
  | toolCalls (calls : List AToolUse)
  deriving Repr, DecidableEq

/-- The content slot of an Anthropic-format request message: either a
list of request blocks (built by `_format_messages`) or the raw response
block list that `_format_tool_results` re-attaches verbatim as the
assistant's prior turn. -/
inductive AMsgContent where
  | parts (blocks : List ABlock)
  | raw (blocks : List ARespBlock)
  deriving Repr, DecidableEq

/-- One message of the Anthropic request fragment. -/
structure AMessage where
  role : String
  content : AMsgContent
  deriving Repr, DecidableEq

/-- The fragment returned by the Anthropic-family `_format_messages`:
`{"messages": ..., "system": ...}`. -/
structure ARequest where
  messages : List AMessage
  system : Option PyData
  deriving Repr, DecidableEq

/-- The raw Anthropic response as the duck-typed code reads it.  The
fields `messages` and `system` are attributes `_format_tool_results`
expects on the object it is given (the real SDK response has neither;
the model carries them so that the method's behaviour on the shapes it
is actually handed can be stated). -/
structure ARaw where
  content : List ARespBlock
  stop_reason : Option String
  usage : Option PyDict
  id : String
  messages : List AMessage
  system : Option PyData
  deriving Repr, DecidableEq

/-- The tool schema built by the Anthropic-family `_format_tools`:
`{"name", "description", "input_schema": {"type": "object", "properties",
"required"}}`.  `properties` is `tool.parameters.get("properties", {})`,
carried as the looked-up value. -/
structure AToolSchema where
  name : String
  description : String
  properties : Option PyVal
  required : List String
  deriving Repr, DecidableEq

/-- `AnthropicLLM._format_tools` / `BedrockAnthropicLLM._format_tools`
(identical bodies). -/
def anthropicFormatTools (tools : Option (List Tool)) : List AToolSchema :=
  match tools with
  | none => []
  | some l =>
    if l.isEmpty then []
    else l.map (fun t =>
      { name := t.name
        description := t.description
        properties := (t.«parameters».find? (fun kv => kv.1 == "properties")).map (·.2)
        required := t.required_params.getD [] })

/-- The system extraction both Anthropic-family `_format_messages` run on
a System message: `next((c.data for c in msg.content if c.type == TEXT),
None)`. -/
def extractSystem (msg : Message) : Option PyData :=
  (msg.content.find? (fun c => c.type == ContentType.text)).map (·.data)

/-- Recursive core of `AnthropicLLM._format_messages` (lines 48-83):
threads the `system` variable through the message list, skips roles
other than user/assistant, maps Text/Image content to blocks (dropping
other content types) and appends every surviving message whether or not
its block list is empty. -/
def anthropicFormatMessagesAux : Option PyData → List Message → List AMessage × Option PyData
  | system, [] => ([], system)
  | system, msg :: rest =>
    if msg.role = RoleType.system then
      anthropicFormatMessagesAux (extractSystem msg) rest
    else if msg.role ≠ RoleType.user ∧ msg.role ≠ RoleType.assistant then
      anthropicFormatMessagesAux system rest
    else
      let content := msg.content.filterMap (fun c =>
        match c.type with
        | .text => some (ABlock.text c.data)
        | .image => some (ABlock.image (pyOr c.mime_type "image/jpeg") c.data)
        | _ => none)
      let (ms, sys) := anthropicFormatMessagesAux system rest
      (⟨msg.role.value, .parts content⟩ :: ms, sys)

/-- `AnthropicLLM._format_messages`. -/
def anthropicFormatMessages (messages : List Message) : ARequest :=
  let (ms, sys) := anthropicFormatMessagesAux none messages
  { messages := ms, system := sys }

/-- `AnthropicLLM._create_response` (lines 112-123): reads
`raw_response.content[0].text`; if the content list is empty that is an
`IndexError`, and if the first block is not a text block the `.text`
access is an `AttributeError` — both modelled as `.error`. -/
def anthropicCreateResponse (ctx : VendorCtx) (raw : ARaw)
    (tool_calls : Option (List ToolCall)) : Except String LLMResponse :=
  match raw.content.head? with
  | some (ARespBlock.text t) =>
      .ok { content := [{ type := .text, data := .str t }]
            model := some ctx.model
            finish_reason := raw.stop_reason
            usage := raw.usage
            tool_calls := tool_calls
            system_fingerprint := some raw.id }
  | some (ARespBlock.toolCalls _) => .error "AttributeError: text"
  | none => .error "IndexError: list index out of range"

/-- `AnthropicLLM._extract_tool_calls` (lines 125-138). -/
def anthropicExtractToolCalls (raw : ARaw) : List ToolCall :=
  (raw.content.map (fun b =>
    match b with
    | .toolCalls calls =>
        calls.map (fun c => { id := c.id, name := c.name, input := some c.«parameters» })
    | _ => [])).flatten

/-- `AnthropicLLM._has_tool_calls` (lines 140-142). -/
def anthropicHasToolCalls (raw : ARaw) : Bool :=
  raw.content.any (fun b => match b with | .toolCalls _ => true | _ => false)

/-- Python `str()` of one tool-result dict, as interpolated by
`AnthropicLLM._format_tool_results` (`str(result)` at line 163): keys in
insertion order, string values in single-quote repr (contents without
quote characters assumed), `is_error` present only in error results. -/
def pyStrToolResult (r : ToolResult) : String :=
  "\x7b'type': 'tool_result', 'tool_use_id': '" ++ r.tool_use_id
    ++ "', 'content': '" ++ r.content ++ "'"
    ++ (if r.isError then ", 'is_error': True" else "") ++ "\x7d"

/-- `AnthropicLLM._format_tool_results` (lines 144-168): extends
`raw_response.messages` with the assistant's raw content blocks and one
user message whose content is a `text` block per tool result holding the
stringified result dict. -/
def anthropicFormatToolResults (raw : ARaw) (tool_results : List ToolResult) : ARequest :=
  { messages := raw.messages
      ++ [⟨"assistant", .raw raw.content⟩,
          ⟨"user", .parts (tool_results.map (fun r => ABlock.text (.str (pyStrToolResult r))))⟩]
    system := raw.system }

/-- The request body `AnthropicLLM._make_request` (lines 85-110) builds
for `client.messages.create`: `system` only when truthy, `tools` only
when non-empty. -/
structure ARequestBody where
  model : String
  messages : List AMessage
  max_tokens : Nat
  temperature : Rat
  system : Option PyData
  tools : Option (List AToolSchema)
  deriving Repr, DecidableEq

/-- Truthiness of the `system` slot (`if messages["system"]:`): absent,
`None`, and the empty string are falsy. -/
def truthySystem (s : Option PyData) : Option PyData :=
  match s with
  | some (.str t) => if t = "" then none else some (.str t)
  | some (.bytes b) => if b.size = 0 then none else some (.bytes b)
  | none => none

/-- The kwargs `AnthropicLLM._make_request` assembles. -/
def anthropicBuildBody (ctx : VendorCtx) (req : ARequest) (tools : List AToolSchema) :
    ARequestBody :=
  { model := ctx.model
    messages := req.messages
    max_tokens := ctx.config.max_tokens.getD 4096
    temperature := ctx.config.temperature
    system := truthySystem req.system
    tools := if tools.isEmpty then none else some tools }

/-- `AnthropicLLM._make_request` with the SDK call as an oracle: the
`try/except` logs and re-raises, so every oracle error — the provider's
rate-limit signal included — propagates to the caller. -/
def anthropicMakeRequest (net : ARequestBody → Except ApiError ARaw)
    (ctx : VendorCtx) (req : ARequest) (tools : List AToolSchema) :
    Except ApiError ARaw :=
  net (anthropicBuildBody ctx req tools)

/-- The `VendorOps` record of the direct Anthropic adapter, its network
call supplied by the mock oracle `net`. -/
def anthropicOps (net : VendorCtx → ARequest → List AToolSchema → Bool → ARaw) :
    VendorOps ARaw ARequest (List AToolSchema) :=
  { formatMessages := fun _ msgs _ => anthropicFormatMessages msgs
    formatTools := anthropicFormatTools
    makeRequest := net
    createResponse := anthropicCreateResponse
    extractToolCalls := anthropicExtractToolCalls
    hasToolCalls := anthropicHasToolCalls
    formatToolResults := anthropicFormatToolResults }

/-- `AnthropicLLM.generate_sync` (lines 192-208): raises `ValueError`
before doing anything else when `stream=True`; otherwise runs `generate`
with `stream=False`. -/
def anthropicGenerateSync (net : VendorCtx → ARequest → List AToolSchema → Bool → ARaw)
    (s : LLMState) (messages : List Message) (stream : Bool)
    (tools : Option (List Tool)) : Except String (GenOut ARaw) × Nat :=
  if stream then (.error "Streaming is not supported in synchronous mode", 0)
  else generate (anthropicOps net) s messages false tools

/-! ## The OpenAI adapter (`openai_llm.py`) -/

/-- The image-url slot built by `OpenAILLM._format_messages` (lines
77-96): a string already of `data:`/`http` shape is passed through,
anything else becomes a `data:{mime};base64,{payload}` url.  Raw bytes
are base64-encoded first; the base64 text of real image bytes is taken
not to start with `data:` or `http`, so bytes always land in the
data-url case (the payload carries the blob in place of its base64
text). -/
inductive OImageUrl where
  | passthrough (url : String)
  | dataUrl (media_type : String) (payload : PyData)
  deriving Repr, DecidableEq

/-- One part of an OpenAI multi-part content list. -/
inductive OContentPart where
  | text (text : PyData)
  | image (url : OImageUrl)
  deriving Repr, DecidableEq

/-- The content slot of a formatted OpenAI message: the bare text value
when the part list is a single text part, otherwise the part list. -/
inductive OMsgContent where
  | scalar (text : PyData)
  | parts (l : List OContentPart)
  deriving Repr, DecidableEq

/-- One formatted OpenAI chat message; `name` / `function_call` keys are
set only when the source fields are truthy. -/
structure OMessage where
  role : String
  content : OMsgContent
  name : Option String := none
  function_call : Option PyDict := none
  deriving Repr, DecidableEq

/-- The url computation for one Image content item. -/
def openaiImageUrl (c : Content) : OImageUrl :=
  match c.data with
  | .str s =>
      if s.startsWith "data:" || s.startsWith "http" then .passthrough s
      else .dataUrl (pyOr c.mime_type "image/jpeg") (.str s)
  | .bytes img => .dataUrl (pyOr c.mime_type "image/jpeg") (.bytes img)

/-- `OpenAILLM._format_messages` (lines 53-117): every input message is
appended (there is no empty-content filter and no role filter). -/
def openaiFormatMessages (messages : List Message) : List OMessage :=
  messages.map (fun msg =>
    let content_list := msg.content.filterMap (fun c =>
      match c.type with
      | .text => some (OContentPart.text c.data)
      | .image => some (OContentPart.image (openaiImageUrl c))
      | _ => none)
    let content := match content_list with
      | [OContentPart.text t] => OMsgContent.scalar t
      | l => OMsgContent.parts l
    { role := msg.role.value
      content := content
      name := match msg.name with
        | some n => if n = "" then none else some n
        | none => none
      function_call := match msg.function_call with
        | some fc => if fc.isEmpty then none else some fc
        | none => none })

/-- A tool call inside an OpenAI raw response
(`tool_call.id / .function.name / .function.arguments`); the JSON
`arguments` string is carried in parsed form (the unparseable-string
fallback of `_extract_tool_calls` lines 132-136 is not modelled — no
claim touches it). -/
structure ORespToolCall where
  id : String
  name : String
  arguments : PyDict
  deriving Repr, DecidableEq

/-- `response.choices[0].message` of an OpenAI raw response. -/
structure OChoiceMessage where
  content : Option String
  tool_calls : List ORespToolCall
  deriving Repr, DecidableEq

/-- One choice of an OpenAI raw response. -/
structure OChoice where
  message : OChoiceMessage
  finish_reason : Option String
  deriving Repr, DecidableEq

/-- An OpenAI raw (chat-completion) response as the adapter reads it. -/
structure ORaw where
  choices : List OChoice
  usage : Option PyDict
  system_fingerprint : Option String
  deriving Repr, DecidableEq

/-- The tool schema built by `OpenAILLM._format_tools`
(`{"type": "function", "function": {...}}`). -/
structure OToolSchema where
  name : String
  description : String
  properties : Option PyVal
  required : List String
  deriving Repr, DecidableEq

/-- `OpenAILLM._format_tools` (lines 29-51). -/
def openaiFormatTools (tools : Option (List Tool)) : List OToolSchema :=
  match tools with
  | none => []
  | some l =>
    if l.isEmpty then []
    else l.map (fun t =>
      { name := t.name
        description := t.description
        properties := (t.«parameters».find? (fun kv => kv.1 == "properties")).map (·.2)
        required := t.required_params.getD [] })

/-- `OpenAILLM._extract_tool_calls` (lines 119-147): tool calls of the
first choice, each carried under the `"arguments"` key.  An empty
choices list is an `IndexError` in the source; the claims only apply
this to responses with a first choice, where `[]` is what an absent
first choice contributes. -/
def openaiExtractToolCalls (raw : ORaw) : List ToolCall :=
  match raw.choices.head? with
  | none => []
  | some ch => ch.message.tool_calls.map (fun tc =>
      { id := tc.id, name := tc.name, arguments := some tc.arguments })

/-- `OpenAILLM._has_tool_calls` (lines 149-153): truthiness of
`choices[0].message.tool_calls` (an empty list is falsy). -/
def openaiHasToolCalls (raw : ORaw) : Bool :=
  match raw.choices.head? with
  | none => false
  | some ch => !ch.message.tool_calls.isEmpty

/-- One message of the re-request `OpenAILLM._format_tool_results`
builds: the assistant echo (optional content, optional serialized tool
calls) or a `role:"tool"` result message. -/
inductive OResultMessage where
  | assistant (content : Option String) (tool_calls : Option (List ORespToolCall))
  | tool (content : String) (tool_call_id : String)
  deriving Repr, DecidableEq

/-- `OpenAILLM._format_tool_results` (lines 155-194). -/
def openaiFormatToolResults (raw : ORaw) (tool_results : List ToolResult) :
    List OResultMessage :=
  match raw.choices.head? with
  | none => []
  | some ch =>
      OResultMessage.assistant ch.message.content
          (if ch.message.tool_calls.isEmpty then none else some ch.message.tool_calls)
        :: tool_results.map (fun r => OResultMessage.tool r.content r.tool_use_id)

/-- `OpenAILLM._create_response` (lines 236-262): the single text content
item is added only when `choices[0].message.content` is truthy (`None`
and `""` both yield an empty content list); `tool_calls` falls back to
extraction when the argument is falsy.  An empty choices list is an
`IndexError`. -/
def openaiCreateResponse (ctx : VendorCtx) (raw : ORaw)
    (tool_calls : Option (List ToolCall)) : Except String LLMResponse :=
  match raw.choices.head? with
  | none => .error "IndexError: list index out of range"
  | some ch =>
      let content : List Content := match ch.message.content with
        | some s => if s = "" then [] else [{ type := .text, data := .str s }]
        | none => []
      let tcs := match tool_calls with
        | some l => if l.isEmpty then openaiExtractToolCalls raw else l
        | none => openaiExtractToolCalls raw
      .ok { content := content
            model := some ctx.model
            finish_reason := ch.finish_reason
            tool_calls := some tcs
            usage := raw.usage
            system_fingerprint := raw.system_fingerprint }

/-- The kwargs `OpenAILLM._make_request` assembles (tools and
tool_choice only when `tools` is truthy). -/
structure ORequestBody where
  model : String
  messages : List OMessage
  temperature : Rat
  max_tokens : Option Nat
  stream : Bool
  tools : Option (List OToolSchema)
  tool_choice : Option String
  deriving Repr, DecidableEq

/-- Request-body assembly of `OpenAILLM._make_request` (lines 200-211). -/
def openaiBuildBody (ctx : VendorCtx) (messages : List OMessage)
    (tools : List OToolSchema) (stream : Bool) : ORequestBody :=
  { model := ctx.model
    messages := messages
    temperature := ctx.config.temperature
    max_tokens := ctx.config.max_tokens
    stream := stream
    tools := if tools.isEmpty then none else some tools
    tool_choice := if tools.isEmpty then none else some (ctx.tool_choice.getD "auto") }

/-- `OpenAILLM._make_request` (lines 196-234) with the SDK call as an
attempt-indexed oracle: a `RateLimitError` is caught, `handle_rate_limit`
(a bounded 60s sleep, a no-op here) runs, and the same request is retried
by self-recursion; any other error re-raises.  The source recursion has
no depth bound, so it is supplied as `fuel`; the theorems quantify over
sufficient fuel. -/
def openaiMakeRequest (net : Nat → ORequestBody → Except ApiError ORaw)
    (body : ORequestBody) : Nat → Nat → Except ApiError ORaw
  | _, 0 => .error (.other "RecursionError: maximum recursion depth exceeded")
  | attempt, fuel + 1 =>
    match net attempt body with
    | .ok r => .ok r
    | .error .rateLimit => openaiMakeRequest net body (attempt + 1) fuel
    | .error e => .error e

/-- `OpenAILLM.generate` (lines 278-307), which overrides the base
method: after the request, the tool loop is entered only when the
`tools` argument is truthy and the response has tool calls; otherwise
`_create_response` runs directly.  The second component counts network
requests.  The re-request path delegates to the base
`_process_response`, whose `_format_tool_results`/`_make_request`
round-trip is routed through the mock `netLoop` oracle. -/
def openaiGenerate (net : VendorCtx → List OMessage → List OToolSchema → Bool → ORaw)
    (netLoop : VendorCtx → List OResultMessage → List OToolSchema → Bool → ORaw)
    (s : LLMState) (messages : List Message) (stream : Bool)
    (tools : Option (List Tool)) : Except String (GenOut ORaw) × Nat :=
  let formatted_messages := openaiFormatMessages messages
  let formatted_tools := openaiFormatTools tools
  let raw_response := net s.ctx formatted_messages formatted_tools stream
  if stream then (.ok (.stream raw_response), 1)
  else
    let toolsTruthy := match tools with
      | some (_ :: _) => true
      | _ => false
    if toolsTruthy && openaiHasToolCalls raw_response then
      let loopOps : VendorOps ORaw (List OResultMessage) (List OToolSchema) :=
        { formatMessages := fun _ _ _ => []
          formatTools := openaiFormatTools
          makeRequest := netLoop
          createResponse := openaiCreateResponse
          extractToolCalls := openaiExtractToolCalls
          hasToolCalls := openaiHasToolCalls
          formatToolResults := openaiFormatToolResults }
      let (r, n) := processResponse loopOps s.ctx s.max_tool_calls raw_response
        (tools.getD []) 0
      (r.map GenOut.response, 1 + n)
    else (openaiCreateResponse s.ctx raw_response none |>.map GenOut.response, 1)

/-- `OpenAILLM.generate_sync` (lines 314-329): passes the caller's
`stream` flag straight through to `generate` and raises nothing. -/
def openaiGenerateSync (net : VendorCtx → List OMessage → List OToolSchema → Bool → ORaw)
    (netLoop : VendorCtx → List OResultMessage → List OToolSchema → Bool → ORaw)
    (s : LLMState) (messages : List Message) (stream : Bool)
    (tools : Option (List Tool)) : Except String (GenOut ORaw) × Nat :=
  openaiGenerate net netLoop s messages stream tools

/-! ## The Bedrock-Anthropic adapter (`bedrock_anthropic_llm.py`) -/

/-- `SUPPORTED_IMAGE_FORMATS` (line 23). -/
def SUPPORTED_IMAGE_FORMATS : List String :=
  ["image/jpeg", "image/png", "image/gif", "image/webp"]

/-- `MAX_IMAGE_SIZE` (line 24): 10MB in bytes. -/
def MAX_IMAGE_SIZE : Nat := 10 * 1024 * 1024

/-- `MAX_IMAGE_DIMENSION` (line 25). -/
def MAX_IMAGE_DIMENSION : Nat := 4096

/-- A content block of a Bedrock request or parsed Bedrock response
(both are plain JSON dicts, so one type serves both directions).  An
`image` block stands for `{"type":"image","source":{"type":"base64",
"media_type",...,"data": <base64 bytes>}}` with the encoded image's
dimensions and format carried in place of its base64 text. -/
inductive BBlock where
  | text (text : PyData)
  | image (media_type : String) (width height : Nat) (format : String)
  | toolUse (id : String) (name : String) (input : PyDict)
  | toolResult (tool_use_id : String) (content : String)
  deriving Repr, DecidableEq

/-- One message of a Bedrock request. -/
structure BMessage where
  role : String
  content : List BBlock
  deriving Repr, DecidableEq

/-- The fragment built by `BedrockAnthropicLLM._format_messages` /
`_format_tool_results`: `{"messages", "system"}`. -/
structure BRequest where
  messages : List BMessage
  system : Option PyData
  deriving Repr, DecidableEq

/-- A raw Bedrock response as the adapter reads it: a parsed JSON dict.
`messages` and `system` model the optional presence of those keys
(`raw_response.get(...)` in `_format_tool_results`); the dict
`_make_request` returns carries neither key. -/
structure BRaw where
  content : List BBlock
  stop_reason : Option String
  usage : Option PyDict
  messages : Option (List BMessage)
  system : Option PyData
  deriving Repr, DecidableEq

/-- The body the Bedrock service returns for `invoke_model` (the JSON
the adapter parses with `json.loads(response["body"].read())`). -/
structure BApiBody where
  content : List BBlock
  stop_reason : Option String
  usage : Option PyDict
  deriving Repr, DecidableEq

/-- Parsing the Bedrock service body into the adapter's raw-response
shape: the parsed dict has `content` / `stop_reason` / `usage` keys and
no `messages` or `system` key. -/
def bedrockLoadResponse (b : BApiBody) : BRaw :=
  { content := b.content
    stop_reason := b.stop_reason
    usage := b.usage
    messages := none
    system := none }

/-- The scaled dimension computed by `_process_image` lines 96-97:
`int(dim * (MAX_IMAGE_DIMENSION / max(img.size)))`, with the float
arithmetic modelled exactly (truncation of `dim * 4096 / maxDim`). -/
def scaledDim (dim maxDim : Nat) : Nat := dim * MAX_IMAGE_DIMENSION / maxDim

/-- `BedrockAnthropicLLM._process_image` (lines 57-120).  Every failure
raises `ValueError(f"Failed to process image: {e}")` (the final
`except Exception` re-wrap).  Order of checks as in the source: explicit
MIME type, byte size, decodability (`Image.open` fails on non-bytes
data), MIME derived from the decoded format, then the dimension ceiling
with aspect-preserving downscale before base64 encoding. -/
def processImage (data : PyData) (mime_type : Option String) : Except String BBlock :=
  match mime_type with
  | some m =>
      if m ∉ SUPPORTED_IMAGE_FORMATS then
        .error ("Failed to process image: Unsupported image format: " ++ m)
      else processImageSized data (some m)
  | none => processImageSized data none
where
  /-- The size check onward (source lines 77-116). -/
  processImageSized (data : PyData) (mime : Option String) : Except String BBlock :=
    if MAX_IMAGE_SIZE < pyLen data then
      .error "Failed to process image: Image size exceeds maximum allowed size of 10.0MB"
    else
      match data with
      | .str _ => .error "Failed to process image: cannot identify image data"
      | .bytes img =>
        let mimeEff := match mime with
          | some m => m
          | none => "image/" ++ strLower img.format
        if mime = none ∧ mimeEff ∉ SUPPORTED_IMAGE_FORMATS then
          .error ("Failed to process image: Unsupported image format: " ++ mimeEff)
        else
          let maxDim := max img.width img.height
          if MAX_IMAGE_DIMENSION < maxDim then
            let fmt := if img.format = "" then "PNG" else img.format
            .ok (.image mimeEff (scaledDim img.width maxDim) (scaledDim img.height maxDim) fmt)
          else
            .ok (.image mimeEff img.width img.height img.format)

/-- Recursive core of `BedrockAnthropicLLM._format_messages` (lines
140-168): like the direct adapter's, but images go through
`_process_image` (a `ValueError` skips the image) and a message is
appended **only if** its content list is non-empty.  There is no role
filter beyond the system extraction. -/
def bedrockFormatMessagesAux : Option PyData → List Message → List BMessage × Option PyData
  | system, [] => ([], system)
  | system, msg :: rest =>
    if msg.role = RoleType.system then
      bedrockFormatMessagesAux (extractSystem msg) rest
    else
      let content := msg.content.filterMap (fun c =>
        match c.type with
        | .text => some (BBlock.text c.data)
        | .image => (processImage c.data c.mime_type).toOption
        | _ => none)
      let (ms, sys) := bedrockFormatMessagesAux system rest
      if content.isEmpty then (ms, sys)
      else (⟨msg.role.value, content⟩ :: ms, sys)

/-- `BedrockAnthropicLLM._format_messages`. -/
def bedrockFormatMessages (messages : List Message) : BRequest :=
  let (ms, sys) := bedrockFormatMessagesAux none messages
  { messages := ms, system := sys }

/-- `BedrockAnthropicLLM._create_response` (lines 204-218). -/
def bedrockCreateResponse (ctx : VendorCtx) (raw : BRaw)
    (tool_calls : Option (List ToolCall)) : Except String LLMResponse :=
  .ok { content := raw.content.filterMap (fun b =>
          match b with
          | .text t => some { type := ContentType.text, data := t }
          | _ => none)
        model := some ctx.model
        finish_reason := raw.stop_reason
        usage := raw.usage
        tool_calls := tool_calls }

/-- `BedrockAnthropicLLM._extract_tool_calls` (lines 220-228). -/
def bedrockExtractToolCalls (raw : BRaw) : List ToolCall :=
  raw.content.filterMap (fun b =>
    match b with
    | .toolUse id name input => some { id := id, name := name, input := some input }
    | _ => none)

/-- `BedrockAnthropicLLM._has_tool_calls` (lines 230-232). -/
def bedrockHasToolCalls (raw : BRaw) : Bool :=
  raw.stop_reason == some "tool_use"

/-- `BedrockAnthropicLLM._format_tool_results` (lines 234-256): starts
from `raw_response.get("messages", [])`, appends the assistant turn with
the response's content blocks, then one user turn of proper
`tool_result` blocks, one per result, keyed by the originating call id;
`system` is `raw_response.get("system")`. -/
def bedrockFormatToolResults (raw : BRaw) (tool_results : List ToolResult) : BRequest :=
  { messages := raw.messages.getD []
      ++ [⟨"assistant", raw.content⟩,
          ⟨"user", tool_results.map (fun r => BBlock.toolResult r.tool_use_id r.content)⟩]
    system := raw.system }

/-- The body `BedrockAnthropicLLM._make_request` (lines 174-186) builds
for `invoke_model`. -/
structure BRequestBody where
  max_tokens : Nat
  temperature : Rat
  top_p : Rat
  messages : List BMessage
  system : Option PyData
  tools : Option (List AToolSchema)
  deriving Repr, DecidableEq

/-- Request-body assembly of `BedrockAnthropicLLM._make_request`
(`anthropic_version` is a constant and omitted). -/
def bedrockBuildBody (ctx : VendorCtx) (req : BRequest) (tools : List AToolSchema) :
    BRequestBody :=
  { max_tokens := ctx.config.max_tokens.getD 4096
    temperature := ctx.config.temperature
    top_p := ctx.config.top_p
    messages := req.messages
    system := truthySystem req.system
    tools := if tools.isEmpty then none else some tools }

/-- Non-streaming `BedrockAnthropicLLM._make_request` (lines 193-202)
with the service call as an oracle: the `try/except` logs the request
body and re-raises, so every service error — throttling included —
propagates to the caller; a successful body is parsed with
`bedrockLoadResponse`. -/
def bedrockMakeRequest (net : BRequestBody → Except ApiError BApiBody)
    (ctx : VendorCtx) (req : BRequest) (tools : List AToolSchema) :
    Except ApiError BRaw :=
  (net (bedrockBuildBody ctx req tools)).map bedrockLoadResponse

/-- The `VendorOps` record of the Bedrock adapter with a mock network.
Bedrock overrides neither `generate` nor `generate_sync`, so the base
implementations drive these operations. -/
def bedrockOps (net : VendorCtx → BRequest → List AToolSchema → Bool → BRaw) :
    VendorOps BRaw BRequest (List AToolSchema) :=
  { formatMessages := fun _ msgs _ => bedrockFormatMessages msgs
    formatTools := anthropicFormatTools
    makeRequest := net
    createResponse := bedrockCreateResponse
    extractToolCalls := bedrockExtractToolCalls
    hasToolCalls := bedrockHasToolCalls
    formatToolResults := bedrockFormatToolResults }

/-! ## The round-trip composition (spec §8) and concrete fixtures

`anthropicRoundTrip` / `openaiRoundTrip` are the composition the spec's
round-trip property quantifies over: `_format_messages` → vendor
fragment → a mock vendor response carrying the fragment's text → the
adapter's `_create_response`.  The mock response construction follows
the vendor's real response shape: a list of `text` content blocks for
Anthropic, a single message-content string for OpenAI. -/

/-- A mock Anthropic response whose content is the given texts as `text`
blocks (stop reason `end_turn`, id `mock`). -/
def mockAnthropicRaw (texts : List String) : ARaw :=
  { content := texts.map ARespBlock.text
    stop_reason := some "end_turn"
    usage := none
    id := "mock"
    messages := []
    system := none }

/-- The texts of the blocks of one formatted Anthropic fragment. -/
def aFragmentTexts (req : ARequest) : List String :=
  (req.messages.map (fun m =>
    match m.content with
    | .parts bs => bs.filterMap (fun b =>
        match b with
        | ABlock.text (.str s) => some s
        | _ => none)
    | .raw _ => [])).flatten

/-- The round-trip of one `Message` through the direct Anthropic
adapter: format it, carry the fragment's texts back in a mock response,
convert with `_create_response`. -/
def anthropicRoundTrip (ctx : VendorCtx) (msg : Message) : Except String LLMResponse :=
  anthropicCreateResponse ctx
    (mockAnthropicRaw (aFragmentTexts (anthropicFormatMessages [msg]))) none

/-- A mock OpenAI response carrying the given text as
`choices[0].message.content` (finish reason `stop`, no tool calls). -/
def mockOpenaiRaw (text : String) : ORaw :=
  { choices := [{ message := { content := some text, tool_calls := [] }
                  finish_reason := some "stop" }]
    usage := none
    system_fingerprint := none }

/-- The round-trip of one `Message` through the OpenAI adapter.  OpenAI
responses carry message content as one string, so the mock is defined
for messages the adapter formats to scalar string content (single text
part); other shapes have no canonical mock and yield an error marker. -/
def openaiRoundTrip (ctx : VendorCtx) (msg : Message) : Except String LLMResponse :=
  match openaiFormatMessages [msg] with
  | [om] =>
    match om.content with
    | .scalar (.str s) => openaiCreateResponse ctx (mockOpenaiRaw s) none
    | _ => .error "mock response undefined for non-scalar content"
  | _ => .error "unreachable: one input message formats to one message"

/-- A deterministic construction context for concrete instances. -/
def ctx0 : VendorCtx := { api_key := some "key", model := "test-model", config := {} }

/-- A deterministic instance state for concrete instances. -/
def state0 : LLMState := { ctx := ctx0, tools := [], history := [], max_tool_calls := 73 }

/-- A mock vendor that always reports a pending tool call: every raw
response has tool calls and extracts one call to `ping`. -/
def pendingVendor : VendorOps Unit Unit Unit :=
  { formatMessages := fun _ _ _ => ()
    formatTools := fun _ => ()
    makeRequest := fun _ _ _ _ => ()
    createResponse := fun _ _ _ => .ok { content := [] }
    extractToolCalls := fun _ => [{ id := "1", name := "ping" }]
    hasToolCalls := fun _ => true
    formatToolResults := fun _ _ => () }

/-- A tool whose callable returns the string `"4"`. -/
def echoTool : Tool :=
  { name := "echo", description := "returns 4", «parameters» := []
    function := fun _ => .ok (.str "4") }

/-- A tool whose callable always raises `RuntimeError("boom")`. -/
def failTool : Tool :=
  { name := "crash", description := "always raises", «parameters» := []
    function := fun _ => .error "boom" }

/-- A tool call whose name matches no available tool. -/
def tcMiss : ToolCall := { id := "call-1", name := "nope" }

/-- A tool call for `echoTool`. -/
def tcEcho : ToolCall := { id := "call-2", name := "echo" }

/-- A tool call for `failTool`. -/
def tcFail : ToolCall := { id := "call-3", name := "crash" }

/-- A concrete successful OpenAI raw response. -/
def oraw0 : ORaw :=
  { choices := [{ message := { content := some "ok", tool_calls := [] }
                  finish_reason := some "stop" }]
    usage := none
    system_fingerprint := none }

/-- An attempt-indexed network that is rate-limited once, then succeeds. -/
def rlNet : Nat → ORequestBody → Except ApiError ORaw :=
  fun attempt _ => if attempt = 0 then .error .rateLimit else .ok oraw0

/-- A constant OpenAI mock network (for the streaming entry point). -/
def constONet : VendorCtx → List OMessage → List OToolSchema → Bool → ORaw :=
  fun _ _ _ _ => oraw0

/-- A constant OpenAI mock network for the tool-loop re-request path. -/
def constONetLoop : VendorCtx → List OResultMessage → List OToolSchema → Bool → ORaw :=
  fun _ _ _ _ => oraw0

/-- A concrete direct-Anthropic raw response (one text block, tool-use
stop reason, no `messages`-attribute backlog). -/
def araw0 : ARaw :=
  { content := [.text "draft"]
    stop_reason := some "tool_use"
    usage := none
    id := "resp-1"
    messages := []
    system := none }

/-- A concrete successful tool result. -/
def tr0 : ToolResult := { tool_use_id := "id1", content := "4", isError := false }

/-- A user message whose single content item is Audio: it maps to zero
vendor-native parts in every adapter. -/
def msgAudio : Message :=
  { role := .user, content := [{ type := .audio, data := .str "clip" }] }

/-- A user message containing only Text content — two items. -/
def msgTwoTexts : Message :=
  { role := .user
    content := [{ type := .text, data := .str "a" }, { type := .text, data := .str "b" }] }

/-- An image blob one byte over the 10MB ceiling. -/
def imgBig : ImageBlob :=
  { size := 10 * 1024 * 1024 + 1, width := 100, height := 100, format := "PNG" }

/-- An in-size image blob whose larger dimension exceeds 4096. -/
def imgWide : ImageBlob := { size := 1000, width := 8192, height := 4096, format := "PNG" }

/-! ## Theorems -/

/-- Helper: under a vendor that always reports a pending tool call, the
tool loop runs its fuel out and returns the synthetic bound-hit
response, making exactly `fuel` re-requests. -/
theorem processResponseGo_pending {Raw Req TF : Type} (V : VendorOps Raw Req TF)
    (ctx : VendorCtx) (N : Nat) (tools : List Tool)
    (hHas : ∀ r, V.hasToolCalls r = true)
    (hExtract : ∀ r, (V.extractToolCalls r).isEmpty = false) :
    ∀ (fuel count : Nat) (raw : Raw), fuel = N - count →
      processResponseGo V ctx N tools fuel raw count
        = (.ok (maxToolsExceededResponse ctx N), fuel) := by
  intro fuel
  induction fuel with
  | zero => intro count raw _; rfl
  | succ f ih =>
    intro count raw hfuel
    have hlt : ¬ N ≤ count := by omega
    have hrec : f = N - (count + 1) := by omega
    simp only [processResponseGo, hlt, if_false, hExtract raw, Bool.false_eq_true,
      hHas (V.makeRequest ctx (V.formatToolResults raw
        ((V.extractToolCalls raw).map (fun tc => executeTool tc tools)))
        (V.formatTools (some tools)) false),
      if_true, ih (count + 1) _ hrec]

/-- C1.  For every ceiling `N` (`max_tool_calls = N`) and every vendor
behaviour that always reports a pending tool call, the tool loop
terminates making at most `N` re-requests, returning (not raising) a
synthetic `LLMResponse` whose `finish_reason` is `"max_tools_exceeded"`;
`generate` then terminates with that response after `1 + N` network
calls in total (the initial request plus `N` loop iterations). -/
theorem generate_toolLoop_bound {Raw Req TF : Type} (V : VendorOps Raw Req TF)
    (s : LLMState) (messages : List Message) (raw : Raw) (tools : List Tool)
    (hHas : ∀ r, V.hasToolCalls r = true)
    (hExtract : ∀ r, (V.extractToolCalls r).isEmpty = false) :
    (processResponse V s.ctx s.max_tool_calls raw tools 0).2 ≤ s.max_tool_calls ∧
    (processResponse V s.ctx s.max_tool_calls raw tools 0).1
      = .ok (maxToolsExceededResponse s.ctx s.max_tool_calls) ∧
    (maxToolsExceededResponse s.ctx s.max_tool_calls).finish_reason
      = some "max_tools_exceeded" ∧
    generate V s messages false (some tools)
      = (.ok (.response (maxToolsExceededResponse s.ctx s.max_tool_calls)),
         1 + s.max_tool_calls) := by
  have key : ∀ raw' : Raw,
      processResponse V s.ctx s.max_tool_calls raw' tools 0
        = (.ok (maxToolsExceededResponse s.ctx s.max_tool_calls), s.max_tool_calls) := by
    intro raw'
    unfold processResponse
    simpa using processResponseGo_pending V s.ctx s.max_tool_calls tools hHas hExtract
      (s.max_tool_calls - 0) 0 raw' rfl
  refine ⟨?_, ?_, rfl, ?_⟩
  · rw [key raw]
  · rw [key raw]
  · simp only [generate, Bool.false_eq_true, if_false, Option.getD_some, key]
    rfl

/-- Witness for C1: the always-pending mock vendor with ceiling 3. -/
theorem generate_toolLoop_bound_witness :
    (processResponse pendingVendor ctx0 3 () [] 0).2 ≤ 3 ∧
    (processResponse pendingVendor ctx0 3 () [] 0).1
      = .ok (maxToolsExceededResponse ctx0 3) ∧
    (maxToolsExceededResponse ctx0 3).finish_reason = some "max_tools_exceeded" := by
  have h := generate_toolLoop_bound pendingVendor
    { ctx := ctx0, tools := [], history := [], max_tool_calls := 3 } [] () []
    (fun _ => rfl) (fun _ => rfl)
  exact ⟨h.1, h.2.1, h.2.2.1⟩

/-- C2.  For every tool call and every list of available tools the
executor returns a tool-result value keyed by the call id and never
raises (the embedding is a total function): an unmatched name yields an
error-flagged result with a human-readable message; a callable that
raises yields the same error-flagged shape carrying the exception text;
a successful callable yields its stringified return value un-flagged. -/
theorem executeTool_spec (tc : ToolCall) (available_tools : List Tool) :
    (executeTool tc available_tools).tool_use_id = tc.id ∧
    ((∀ t ∈ available_tools, t.name ≠ tc.name) →
      (executeTool tc available_tools).isError = true ∧
      (executeTool tc available_tools).content
        = "Error: Tool " ++ tc.name ++ " not found") ∧
    (∀ t, available_tools.find? (fun t' => t'.name == tc.name) = some t →
      (∀ e, t.function (effectiveToolInput tc) = .error e →
        (executeTool tc available_tools).isError = true ∧
        (executeTool tc available_tools).content
          = "Error executing " ++ tc.name ++ ": " ++ e) ∧
      (∀ v, t.function (effectiveToolInput tc) = .ok v →
        (executeTool tc available_tools).isError = false ∧
        (executeTool tc available_tools).content = pyStr v)) := by
  refine ⟨?_, ?_, ?_⟩
  · rcases hf : available_tools.find? (fun t' => t'.name == tc.name) with _ | t
    · simp [executeTool, hf]
    · rcases hr : t.function (effectiveToolInput tc) with e | v <;>
        simp [executeTool, hf, effectiveToolInput] <;>
        simp [effectiveToolInput] at hr <;> simp [hr]
  · intro hnone
    have hf : available_tools.find? (fun t' => t'.name == tc.name) = none := by
      rw [List.find?_eq_none]
      intro t ht
      simpa using hnone t ht
    simp [executeTool, hf]
  · intro t hf
    constructor
    · intro e he
      simp [executeTool, hf, he]
    · intro v hv
      simp [executeTool, hf, hv]

/-- Witness for C2: a missing tool, a succeeding tool and a raising
tool, all through `executeTool_spec`. -/
theorem executeTool_spec_witness :
    ((executeTool tcMiss [echoTool]).isError = true ∧
      (executeTool tcMiss [echoTool]).content = "Error: Tool nope not found") ∧
    ((executeTool tcEcho [echoTool]).isError = false ∧
      (executeTool tcEcho [echoTool]).content = "4") ∧
    ((executeTool tcFail [echoTool, failTool]).isError = true ∧
      (executeTool tcFail [echoTool, failTool]).content
        = "Error executing crash: boom") := by
  refine ⟨?_, ?_, ?_⟩
  · have h := (executeTool_spec tcMiss [echoTool]).2.1
    exact h (by intro t ht; simp only [List.mem_singleton] at ht; subst ht; decide)
  · have h := ((executeTool_spec tcEcho [echoTool]).2.2 echoTool rfl).2
    exact h (.str "4") rfl
  · have h := ((executeTool_spec tcFail [echoTool, failTool]).2.2 failTool rfl).1
    exact h "boom" rfl

/-- Helper: the OpenAI `_make_request` retry recursion reaches the first
successful attempt after any run of rate-limited attempts. -/
theorem openaiMakeRequest_retry_aux (net : Nat → ORequestBody → Except ApiError ORaw)
    (body : ORequestBody) :
    ∀ (k a fuel : Nat) (r : ORaw),
      (∀ i, i < k → net (a + i) body = .error .rateLimit) →
      net (a + k) body = .ok r → k < fuel →
      openaiMakeRequest net body a fuel = .ok r := by
  intro k
  induction k with
  | zero =>
    intro a fuel r _ hok hfuel
    match fuel, hfuel with
    | f + 1, _ =>
      rw [Nat.add_zero] at hok
      simp [openaiMakeRequest, hok]
  | succ k ih =>
    intro a fuel r hrl hok hfuel
    match fuel, hfuel with
    | f + 1, hfuel =>
      have h0 : net a body = .error .rateLimit := by
        have := hrl 0 (by omega)
        rwa [Nat.add_zero] at this
      have hrec : openaiMakeRequest net body (a + 1) f = .ok r := by
        refine ih (a + 1) f r (fun i hi => ?_) ?_ (by omega)
        · have h := hrl (i + 1) (by omega)
          rwa [show a + (i + 1) = a + 1 + i by omega] at h
        · rwa [show a + (k + 1) = a + 1 + k by omega] at hok
      simp [openaiMakeRequest, h0, hrec]

/-- C3 (amended).  Only the OpenAI adapter absorbs the provider's
rate-limit signal: it delegates to `handle_rate_limit` (a bounded 60s
sleep) and retries the same request body until an attempt is not
rate-limited, returning that attempt's result to the caller.  The
Anthropic-direct and Bedrock adapters re-raise the rate-limit error to
the caller from their `try/except` blocks. -/
theorem makeRequest_rateLimit_amended :
    (∀ (net : Nat → ORequestBody → Except ApiError ORaw) (body : ORequestBody)
        (k fuel : Nat) (r : ORaw),
      (∀ i, i < k → net i body = .error .rateLimit) →
      net k body = .ok r → k < fuel →
      openaiMakeRequest net body 0 fuel = .ok r) ∧
    (∀ (net : ARequestBody → Except ApiError ARaw) (ctx : VendorCtx)
        (req : ARequest) (tools : List AToolSchema),
      net (anthropicBuildBody ctx req tools) = .error .rateLimit →
      anthropicMakeRequest net ctx req tools = .error .rateLimit) ∧
    (∀ (net : BRequestBody → Except ApiError BApiBody) (ctx : VendorCtx)
        (req : BRequest) (tools : List AToolSchema),
      net (bedrockBuildBody ctx req tools) = .error .rateLimit →
      bedrockMakeRequest net ctx req tools = .error .rateLimit) := by
  refine ⟨?_, ?_, ?_⟩
  · intro net body k fuel r hrl hok hfuel
    exact openaiMakeRequest_retry_aux net body k 0 fuel r
      (by simpa using hrl) (by simpa using hok) hfuel
  · intro net ctx req tools h
    simpa [anthropicMakeRequest] using h
  · intro net ctx req tools h
    simp [bedrockMakeRequest, h, Except.map]

/-- Witness for C3 (amended): a network rate-limited on attempt 0 and
successful on attempt 1; OpenAI returns the success, the Anthropic-family
adapters surface the rate-limit error. -/
theorem makeRequest_rateLimit_amended_witness :
    openaiMakeRequest rlNet (openaiBuildBody ctx0 [] [] false) 0 2 = .ok oraw0 ∧
    anthropicMakeRequest (fun _ => .error .rateLimit) ctx0 ⟨[], none⟩ []
      = .error .rateLimit ∧
    bedrockMakeRequest (fun _ => .error .rateLimit) ctx0 ⟨[], none⟩ []
      = .error .rateLimit := by
  refine ⟨?_, ?_, ?_⟩
  · exact makeRequest_rateLimit_amended.1 rlNet (openaiBuildBody ctx0 [] [] false) 1 2 oraw0
      (fun i hi => by
        have h0 : i = 0 := Nat.lt_one_iff.mp hi
        subst h0
        rfl) rfl (by omega)
  · exact makeRequest_rateLimit_amended.2.1 (fun _ => .error .rateLimit) ctx0 ⟨[], none⟩ [] rfl
  · exact makeRequest_rateLimit_amended.2.2 (fun _ => .error .rateLimit) ctx0 ⟨[], none⟩ [] rfl

/-- Counterexample to C3 as stated: on a rate-limit signal the direct
Anthropic adapter's `_make_request` raises the error to the caller
instead of backing off and retrying. -/
theorem anthropic_rateLimit_raises :
    anthropicMakeRequest (fun _ => .error .rateLimit) ctx0 ⟨[], none⟩ []
      = .error .rateLimit := rfl

/-- C4 (amended).  Only the Anthropic-direct `generate_sync` rejects
`stream=true` before any network call (a `ValueError`, zero requests
issued).  The OpenAI adapter and the base implementation the Bedrock
adapter inherits pass the flag through: they issue the network request
and return the raw streaming handle without raising. -/
theorem generateSync_stream_amended :
    (∀ (net : VendorCtx → ARequest → List AToolSchema → Bool → ARaw) (s : LLMState)
        (messages : List Message) (tools : Option (List Tool)),
      anthropicGenerateSync net s messages true tools
        = (.error "Streaming is not supported in synchronous mode", 0)) ∧
    (∀ (net : VendorCtx → List OMessage → List OToolSchema → Bool → ORaw)
        (netLoop : VendorCtx → List OResultMessage → List OToolSchema → Bool → ORaw)
        (s : LLMState) (messages : List Message) (tools : Option (List Tool)),
      openaiGenerateSync net netLoop s messages true tools
        = (.ok (.stream (net s.ctx (openaiFormatMessages messages)
            (openaiFormatTools tools) true)), 1)) ∧
    (∀ (net : VendorCtx → BRequest → List AToolSchema → Bool → BRaw) (s : LLMState)
        (messages : List Message) (tools : Option (List Tool)),
      baseGenerateSync (bedrockOps net) s messages true tools
        = (.ok (.stream (net s.ctx (bedrockFormatMessages messages)
            (anthropicFormatTools tools) true)), 1)) :=
  ⟨fun _ _ _ _ => rfl, fun _ _ _ _ _ => rfl, fun _ _ _ _ => rfl⟩

/-- Counterexample to C4 as stated: `OpenAILLM.generate_sync` with
`stream=true` does not raise — it issues one network request and
returns the streaming handle. -/
theorem openai_generateSync_stream_no_raise :
    openaiGenerateSync constONet constONetLoop state0 [] true none
      = (.ok (.stream oraw0), 1) := rfl

/-- C5 (amended).  Both Anthropic-family adapters append exactly one
assistant echo turn and exactly one user turn for the tool results —
but only the Bedrock adapter encodes that user turn as
`{type: 'tool_result', tool_use_id, content}` blocks, one per result,
keyed by the originating call id; the direct adapter encodes it as
plain `text` blocks holding each stringified result dict. -/
theorem formatToolResults_amended :
    (∀ (raw : BRaw) (results : List ToolResult),
      (bedrockFormatToolResults raw results).messages
        = raw.messages.getD []
            ++ [⟨"assistant", raw.content⟩,
                ⟨"user", results.map (fun r => BBlock.toolResult r.tool_use_id r.content)⟩] ∧
      (bedrockFormatToolResults raw results).system = raw.system) ∧
    (∀ (raw : ARaw) (results : List ToolResult),
      (anthropicFormatToolResults raw results).messages
        = raw.messages
            ++ [⟨"assistant", .raw raw.content⟩,
                ⟨"user", .parts (results.map
                  (fun r => ABlock.text (.str (pyStrToolResult r))))⟩] ∧
      (anthropicFormatToolResults raw results).system = raw.system) :=
  ⟨fun _ _ => ⟨rfl, rfl⟩, fun _ _ => ⟨rfl, rfl⟩⟩

/-- Counterexample to C5 as stated: the direct Anthropic adapter's user
turn for a tool result is a `text` block holding the stringified result
dict — it is not a `tool_result` block for any call id. -/
theorem anthropic_toolResults_are_text_blocks :
    anthropicFormatToolResults araw0 [tr0]
      = { messages := [⟨"assistant", .raw [.text "draft"]⟩,
            ⟨"user", .parts [ABlock.text
              (.str "\x7b'type': 'tool_result', 'tool_use_id': 'id1', 'content': '4'\x7d")]⟩]
          system := none } ∧
    ∀ (tid c : String),
      ABlock.text
          (.str "\x7b'type': 'tool_result', 'tool_use_id': 'id1', 'content': '4'\x7d")
        ≠ ABlock.toolResult tid c := by
  constructor
  · rfl
  · intro tid c h
    cases h

/-- Helper: every message the Bedrock formatter emits has a non-empty
content list (the `if content:` guard at line 165). -/
theorem bedrockAux_no_empty :
    ∀ (msgs : List Message) (sys : Option PyData) (m : BMessage),
      m ∈ (bedrockFormatMessagesAux sys msgs).1 → m.content ≠ [] := by
  intro msgs
  induction msgs with
  | nil =>
    intro sys m hm
    simp [bedrockFormatMessagesAux] at hm
  | cons msg rest ih =>
    intro sys m hm
    by_cases hrole : msg.role = RoleType.system
    · simp only [bedrockFormatMessagesAux, if_pos hrole] at hm
      exact ih _ m hm
    · simp only [bedrockFormatMessagesAux, if_neg hrole] at hm
      rcases haux : bedrockFormatMessagesAux sys rest with ⟨ms, sys'⟩
      rw [haux] at hm
      by_cases hc : (msg.content.filterMap (fun c =>
          match c.type with
          | .text => some (BBlock.text c.data)
          | .image => (processImage c.data c.mime_type).toOption
          | _ => none)).isEmpty
      · rw [if_pos hc] at hm
        exact ih _ m (by rw [haux]; exact hm)
      · rw [if_neg hc] at hm
        rcases List.mem_cons.mp hm with heq | hmem
        · subst heq
          simpa [List.isEmpty_iff] using hc
        · exact ih _ m (by rw [haux]; exact hmem)

/-- C6 (amended).  Only the Bedrock adapter drops messages whose content
items all fail to map to a vendor-native part: every message it formats
has non-empty content.  The Anthropic-direct and OpenAI adapters emit
such messages with an empty content list. -/
theorem formatMessages_empty_amended :
    (∀ (messages : List Message) (m : BMessage),
      m ∈ (bedrockFormatMessages messages).messages → m.content ≠ []) ∧
    (∀ msg : Message, msg.role = RoleType.user →
      (∀ c ∈ msg.content, c.type ≠ ContentType.text ∧ c.type ≠ ContentType.image) →
      (anthropicFormatMessages [msg]).messages = [⟨"user", AMsgContent.parts []⟩] ∧
      (openaiFormatMessages [msg]).map (fun m => (m.role, m.content))
        = [("user", OMsgContent.parts [])]) := by
  constructor
  · intro messages m hm
    exact bedrockAux_no_empty messages none m hm
  · intro msg hrole hall
    have hfm : ∀ (f : Content → Option ABlock),
        (∀ c ∈ msg.content, f c = none) → msg.content.filterMap f = [] := by
      intro f hf
      simpa [List.filterMap_eq_nil_iff] using hf
    constructor
    · have hnil : msg.content.filterMap (fun c =>
          match c.type with
          | ContentType.text => some (ABlock.text c.data)
          | ContentType.image => some (ABlock.image (pyOr c.mime_type "image/jpeg") c.data)
          | _ => none) = [] := by
        apply hfm
        intro c hc
        rcases hall c hc with ⟨ht, hi⟩
        cases hcty : c.type <;> simp_all
      simp only [anthropicFormatMessages, anthropicFormatMessagesAux, hrole]
      simp [hrole, hnil, RoleType.value]
    · have hnil : msg.content.filterMap (fun c =>
          match c.type with
          | ContentType.text => some (OContentPart.text c.data)
          | ContentType.image => some (OContentPart.image (openaiImageUrl c))
          | _ => none) = [] := by
        apply (by
          intro f hf
          simpa [List.filterMap_eq_nil_iff] using hf :
          ∀ (f : Content → Option OContentPart),
            (∀ c ∈ msg.content, f c = none) → msg.content.filterMap f = [])
        intro c hc
        rcases hall c hc with ⟨ht, hi⟩
        cases hcty : c.type <;> simp_all
      simp [openaiFormatMessages, hrole, hnil, RoleType.value]

/-- Witness for C6 (amended): the all-Audio user message `msgAudio`. -/
theorem formatMessages_empty_amended_witness :
    (⟨"user", ([] : List BBlock)⟩ ∉ (bedrockFormatMessages [msgAudio]).messages) ∧
    (anthropicFormatMessages [msgAudio]).messages = [⟨"user", AMsgContent.parts []⟩] ∧
    (openaiFormatMessages [msgAudio]).map (fun m => (m.role, m.content))
      = [("user", OMsgContent.parts [])] := by
  have h2 := formatMessages_empty_amended.2 msgAudio rfl (by
    intro c hc
    simp only [msgAudio, List.mem_singleton] at hc
    subst hc
    exact ⟨by decide, by decide⟩)
  exact ⟨fun hmem => formatMessages_empty_amended.1 [msgAudio] _ hmem rfl, h2.1, h2.2⟩

/-- Counterexample to C6 as stated: the direct Anthropic adapter keeps a
user message whose only content item (Audio) maps to no vendor part,
sending it with an empty content list instead of omitting it. -/
theorem anthropic_keeps_empty_message :
    anthropicFormatMessages [msgAudio]
      = { messages := [⟨"user", AMsgContent.parts []⟩], system := none } := rfl

/-- C7 (amended).  For a user `Message` holding exactly one Text content
item, the composition `format_messages` → vendor fragment → mock
response carrying that text → `create_response` preserves the text
unchanged, for both the direct Anthropic and the OpenAI adapter (for
OpenAI the text must be non-empty: its `_create_response` drops falsy
message content).  With two or more Text items the direct adapter keeps
only the first block (see the counterexample), so the claim is amended
to single-item messages. -/
theorem roundTrip_single_text (ctx : VendorCtx) (s : String) (mt : Option String)
    (hs : s ≠ "") :
    anthropicRoundTrip ctx
        { role := .user, content := [{ type := .text, data := .str s, mime_type := mt }] }
      = .ok { content := [{ type := .text, data := .str s }]
              model := some ctx.model
              finish_reason := some "end_turn"
              system_fingerprint := some "mock" } ∧
    openaiRoundTrip ctx
        { role := .user, content := [{ type := .text, data := .str s, mime_type := mt }] }
      = .ok { content := [{ type := .text, data := .str s }]
              model := some ctx.model
              finish_reason := some "stop"
              tool_calls := some [] } := by
  constructor
  · rfl
  · simp [openaiRoundTrip, openaiFormatMessages, openaiCreateResponse, mockOpenaiRaw,
      openaiExtractToolCalls, hs]

/-- Witness for C7 (amended): the text `"4"`. -/
theorem roundTrip_single_text_witness :
    anthropicRoundTrip ctx0
        { role := .user, content := [{ type := .text, data := .str "4" }] }
      = .ok { content := [{ type := .text, data := .str "4" }]
              model := some "test-model"
              finish_reason := some "end_turn"
              system_fingerprint := some "mock" } ∧
    openaiRoundTrip ctx0
        { role := .user, content := [{ type := .text, data := .str "4" }] }
      = .ok { content := [{ type := .text, data := .str "4" }]
              model := some "test-model"
              finish_reason := some "stop"
              tool_calls := some [] } :=
  roundTrip_single_text ctx0 "4" none (by decide)

/-- Counterexample to C7 as stated: a user message containing only Text
content but two items.  The direct Anthropic `_create_response` reads
only `content[0].text`, so the round trip returns just `"a"` while the
original text content is `"a"`, `"b"`. -/
theorem roundTrip_two_texts_loses_content :
    (anthropicRoundTrip ctx0 msgTwoTexts).map (fun r => r.content)
      = .ok [{ type := .text, data := .str "a" }] ∧
    msgTwoTexts.content
      = [{ type := .text, data := .str "a" }, { type := .text, data := .str "b" }] ∧
    ([{ type := .text, data := .str "a" }] : List Content)
      ≠ [{ type := .text, data := .str "a" }, { type := .text, data := .str "b" }] := by
  refine ⟨rfl, rfl, by decide⟩

/-- Helper: a dimension scaled by `MAX_IMAGE_DIMENSION / maxDim` (with
truncation) never exceeds `MAX_IMAGE_DIMENSION` when `dim ≤ maxDim`. -/
theorem scaledDim_le (dim maxDim : Nat) (h : dim ≤ maxDim) (h0 : 0 < maxDim) :
    scaledDim dim maxDim ≤ MAX_IMAGE_DIMENSION := by
  unfold scaledDim
  calc dim * MAX_IMAGE_DIMENSION / maxDim
      ≤ maxDim * MAX_IMAGE_DIMENSION / maxDim :=
        Nat.div_le_div_right (Nat.mul_le_mul_right _ h)
    _ = MAX_IMAGE_DIMENSION := Nat.mul_div_cancel_left _ h0

/-- C8.  For the Bedrock adapter with a supported (or absent) MIME type:
an image over the 10MB ceiling is rejected with a `ValueError` and the
formatter skips it (the all-image message is dropped entirely); an image
within the size ceiling whose larger dimension exceeds 4096 is accepted
after downscaling, both dimensions truncated from the same ratio
`4096 / max(width, height)` and the larger one capped at 4096, before
base64 encoding. -/
theorem processImage_spec (img : ImageBlob) (mime : Option String)
    (hmime : ∀ m, mime = some m → m ∈ SUPPORTED_IMAGE_FORMATS) :
    (MAX_IMAGE_SIZE < img.size →
      processImage (.bytes img) mime
        = .error "Failed to process image: Image size exceeds maximum allowed size of 10.0MB" ∧
      bedrockFormatMessages
          [{ role := .user
             content := [{ type := .image, data := .bytes img, mime_type := mime }] }]
        = { messages := [], system := none }) ∧
    (img.size ≤ MAX_IMAGE_SIZE →
      MAX_IMAGE_DIMENSION < max img.width img.height →
      (mime = none → ("image/" ++ strLower img.format) ∈ SUPPORTED_IMAGE_FORMATS) →
      processImage (.bytes img) mime
        = .ok (.image (mime.getD ("image/" ++ strLower img.format))
            (scaledDim img.width (max img.width img.height))
            (scaledDim img.height (max img.width img.height))
            (if img.format = "" then "PNG" else img.format)) ∧
      scaledDim img.width (max img.width img.height) ≤ MAX_IMAGE_DIMENSION ∧
      scaledDim img.height (max img.width img.height) ≤ MAX_IMAGE_DIMENSION) := by
  have hsized : ∀ m, mime = some m →
      processImage (.bytes img) mime = processImage.processImageSized (.bytes img) (some m) := by
    intro m hm
    subst hm
    simp [processImage, hmime m rfl]
  constructor
  · intro hbig
    have herr : processImage (.bytes img) mime
        = .error "Failed to process image: Image size exceeds maximum allowed size of 10.0MB" := by
      rcases mime with _ | m
      · simp [processImage, processImage.processImageSized, pyLen, hbig]
      · rw [hsized m rfl]
        simp [processImage.processImageSized, pyLen, hbig]
    refine ⟨herr, ?_⟩
    simp [bedrockFormatMessages, bedrockFormatMessagesAux, herr, Except.toOption]
  · intro hsize hdim hderived
    have hnotbig : ¬ MAX_IMAGE_SIZE < pyLen (.bytes img) := by
      simp only [pyLen]
      omega
    have h0 : 0 < max img.width img.height := by
      have := hdim
      unfold MAX_IMAGE_DIMENSION at this
      omega
    have hok : processImage (.bytes img) mime
        = .ok (.image (mime.getD ("image/" ++ strLower img.format))
            (scaledDim img.width (max img.width img.height))
            (scaledDim img.height (max img.width img.height))
            (if img.format = "" then "PNG" else img.format)) := by
      rcases mime with _ | m
      · simp [processImage, processImage.processImageSized, hnotbig,
          hderived rfl, hdim, scaledDim]
      · rw [hsized m rfl]
        simp [processImage.processImageSized, hnotbig, hdim, scaledDim]
    exact ⟨hok,
      scaledDim_le img.width _ (Nat.le_max_left _ _) h0,
      scaledDim_le img.height _ (Nat.le_max_right _ _) h0⟩

/-- Witness for C8: `imgBig` (one byte over 10MB, supported MIME) is
rejected and skipped; `imgWide` (8192×4096 PNG, MIME derived) is
downscaled to 4096×2048. -/
theorem processImage_spec_witness :
    processImage (.bytes imgBig) (some "image/png")
      = .error "Failed to process image: Image size exceeds maximum allowed size of 10.0MB" ∧
    bedrockFormatMessages
        [{ role := .user
           content := [{ type := .image, data := .bytes imgBig, mime_type := some "image/png" }] }]
      = { messages := [], system := none } ∧
    processImage (.bytes imgWide) none = .ok (.image "image/png" 4096 2048 "PNG") := by
  have h1 := (processImage_spec imgBig (some "image/png")
    (by intro m hm; cases hm; decide)).1 (by decide)
  have h2 := (processImage_spec imgWide none (by intro m hm; cases hm)).2
    (by decide) (by decide) (fun _ => by
      have hpng : ("image/" ++ strLower imgWide.format) = "image/png" := rfl
      rw [hpng]
      decide)
  exact ⟨h1.1, h1.2, h2.1⟩

/-- C9.  `generate` retains no caller-supplied state: viewed as a state
transformer, it leaves every instance field (construction context,
registered-tools dict, history, ceiling) exactly as it found them, and
its result is invariant under the registered-tools dict and the history
— the tool loop consults only the `tools` argument of the call.  Both
facts are definitional because no statement in the method (or in the
helpers it calls) assigns to `self` or reads `self.tools`/`self.history`. -/
theorem generate_stateless {Raw Req TF : Type} (V : VendorOps Raw Req TF)
    (ctx : VendorCtx) (d d' : List (String × Tool)) (h h' : List Message) (N : Nat)
    (messages : List Message) (stream : Bool) (tools : Option (List Tool)) :
    statefulGenerate V ⟨ctx, d, h, N⟩ messages stream tools
      = (generate V ⟨ctx, d, h, N⟩ messages stream tools, ⟨ctx, d, h, N⟩) ∧
    generate V ⟨ctx, d, h, N⟩ messages stream tools
      = generate V ⟨ctx, d', h', N⟩ messages stream tools :=
  ⟨rfl, rfl⟩

/-- C10.  For the Bedrock adapter, a raw response of the shape its own
`_make_request` returns (a parsed service body, so no `messages` and no
`system` key) makes `_format_tool_results` produce a request of exactly
two messages — the assistant turn holding the previous response's
content blocks and one user turn of `tool_result` blocks — with a
`system` field of `None`: no earlier turn of the original conversation
is carried into the re-request. -/
theorem bedrock_reRequest_two_messages (b : BApiBody) (tool_results : List ToolResult) :
    (bedrockFormatToolResults (bedrockLoadResponse b) tool_results).messages
      = [⟨"assistant", b.content⟩,
         ⟨"user", tool_results.map (fun r => BBlock.toolResult r.tool_use_id r.content)⟩] ∧
    (bedrockFormatToolResults (bedrockLoadResponse b) tool_results).messages.length = 2 ∧
    (bedrockFormatToolResults (bedrockLoadResponse b) tool_results).system = none := by
  refine ⟨rfl, rfl, rfl⟩
